import Mathlib

/-!
Shallow embedding of `helper_edit.py`, an electricity-generation-mix
projection module.  Machine floats are modelled by exact rationals, numpy
arrays by Lean lists (time-indexed series) and by functions `Fin 6 → ℚ`
(per-source 6-vectors in the fixed channel order Coal, NaturalGas, Solar,
Wind, Nuclear, WinterNaturalGas).  The in-place write that
`get_aReliability` performs on the coefficient array it is handed is
modelled by explicit state passing: the function returns the updated
array alongside the reliability series.
-/

/-- A source-mix row (or any per-source 6-vector): one rational per channel. -/
def Row : Type := Fin 6 → ℚ

/-- Default row used when indexing a trajectory out of range. -/
def zeroRow : Row := fun _ => 0

/-- `np.dot` on two 6-vectors. -/
def dot (a b : Row) : ℚ :=
  a 0 * b 0 + a 1 * b 1 + a 2 * b 2 + a 3 * b 3 + a 4 * b 4 + a 5 * b 5

/-- Module-level default `initial_percentages = np.array([19.3, 53.6, 0.9, 17.5, 8.7, 0])`. -/
def initial_percentages : Row := ![19.3, 53.6, 0.9, 17.5, 8.7, 0]

/-- Module-level default `derivative_sources = np.array([-1.89, 0, 0.0976, 1.29, -0.116, 0])`. -/
def derivative_sources : Row := ![-1.89, 0, 0.0976, 1.29, -0.116, 0]

/-- Module-level default `aRelScores`. -/
def aRelScores : Row :=
  ![-9192.435233, -5811.753731, 26687.77778, -5368.914286, -8413.448276, 0]

/-- The candidate row `P` computed inside the loop of `get_aPercentSources`:
`P = sec_derivative_sources*(0.5*(aYear[i]-2021)**2) + derivative_sources*(aYear[i]-2021) + initial_percentages`,
elementwise over the 6 channels.  The anchor `2021` is a fixed literal in
the source, independent of the supplied time grid. -/
def candidateRow (initP der sec : Row) (t : ℚ) : Row :=
  fun j => sec j * (0.5 * (t - 2021) ^ 2) + der j * (t - 2021) + initP j

/-- The five `if P[k] < 0: P[k] = 0` statements (k = 0, 2, 3, 4, 5); the
NaturalGas channel (index 1) is skipped. -/
def clampP (P : Row) : Row :=
  fun j => if j = 1 then P j else if P j < 0 then 0 else P j

/-- `NG = 100-(P[0]+P[2]+P[3]+P[4]+P[5])`. -/
def slackNG (P : Row) : ℚ :=
  100 - (P 0 + P 2 + P 3 + P 4 + P 5)

/-- `aPercentSources[i,:] = P` followed by `aPercentSources[i,1] = NG`. -/
def acceptedRow (P : Row) (NG : ℚ) : Row :=
  fun j => if j = 1 then NG else P j

/-- One iteration of the loop body of `get_aPercentSources`: compute the
candidate, clamp the non-slack channels, compute the slack, and either
accept the row or fall back to the previously written row
(`initial_percentages` when there is no previous row). -/
def stepRow (initP der sec : Row) (prev : Option Row) (t : ℚ) : Row :=
  let P := clampP (candidateRow initP der sec t)
  let NG := slackNG P
  if 0 ≤ NG then acceptedRow P NG
  else
    match prev with
    | some r => r
    | none => initP

/-- The loop of `get_aPercentSources`, carrying the previously written row
(`aPercentSources[i-1,:]`, absent at the first index) as explicit state. -/
def percentSourcesGo (initP der sec : Row) : Option Row → List ℚ → List Row
  | _, [] => []
  | prev, t :: ts =>
    let r := stepRow initP der sec prev t
    r :: percentSourcesGo initP der sec (some r) ts

/-- `get_aPercentSources(aYear, initial_percentages, derivative_sources, sec_derivative_sources)`:
the source-mix trajectory, one row per time sample. -/
def get_aPercentSources (aYear : List ℚ) (initP der sec : Row) : List Row :=
  percentSourcesGo initP der sec none aYear

/-- `get_aEnergy(aYear, dirE)`: `aEnergy = dirE*aYear - 1.35*10**10` elementwise. -/
def get_aEnergy (aYear : List ℚ) (dirE : ℚ) : List ℚ :=
  aYear.map (fun t => dirE * t - 1.35 * 10 ^ 10)

/-- `get_aReliability(aYear, aPercentSources, aEnergy, perc_effective, dirE, aRelScores)`.
The Python function writes `aRelScores[5] = (1-perc_effective/100)*aReliability[1]`
into the coefficient array it was handed (the module-level default unless
overridden), where `aReliability` is the freshly zero-initialised output
array of length `len(aYear)`; the state-passing model returns the updated
coefficient array as the second component.  Reading index 1 of the fresh
zero array requires `len(aYear) >= 2` in Python (`IndexError` otherwise);
the embedding totalises that read with `getD`. -/
def get_aReliability (aYear : List ℚ) (aPercentSources : List Row) (aEnergy : List ℚ)
    (perc_effective : ℚ) (dirE : ℚ) (scores : Row) : List ℚ × Row :=
  let aReliability0 : List ℚ := List.replicate aYear.length 0
  let Energy_2021 : ℚ := dirE * 2021 - 1.35 * 10 ^ 10
  let scores2 : Row :=
    fun j => if j = 5 then (1 - perc_effective / 100) * aReliability0.getD 1 0 else scores j
  let u : List ℚ := aEnergy.map (fun e => e / Energy_2021)
  ((List.range aYear.length).map
      (fun i => u.getD i 0 * dot scores2 (aPercentSources.getD i zeroRow)),
   scores2)

/-- `get_totalEmissions(aYear, aEmissions)`:
`np.sum(aEmissions)*((aYear[-1]-aYear[0])/len(aYear))`. -/
def get_totalEmissions (aYear : List ℚ) (aEmissions : List ℚ) : ℚ :=
  let delta_t := aYear.getLastD 0 - aYear.headI
  let n : ℚ := (aYear.length : ℚ)
  aEmissions.sum * (delta_t / n)

/-- The slack value computed for the candidate row at time `t` (after
clamping); the row at `t` is accepted exactly when this is nonnegative. -/
def NGof (initP der sec : Row) (t : ℚ) : ℚ :=
  slackNG (clampP (candidateRow initP der sec t))

/-- The row installed when the candidate at `t` is accepted: the clamped
candidate with the NaturalGas channel replaced by the slack value. -/
def installRow (P : Row) : Row :=
  acceptedRow P (slackNG P)

/-- Sum of the six channels of a row. -/
def rowSum (r : Row) : ℚ :=
  r 0 + r 1 + r 2 + r 3 + r 4 + r 5

/-! ### Spec-side restatement of the Source-Mix Trajectory (§4.3)

These definitions follow the wording of the specification, not the Python
source: candidate `P = second_derivative * 0.5 * Δ² + first_derivative * Δ
+ initial_percentages` with `Δ = t - 2021`, clamping written with `max`,
slack `NaturalGas = 100 - (sum of the five possibly-clamped channels)`,
acceptance exactly when the slack is `≥ 0`, and rejection falling back to
the previous accepted row (`initial_percentages` for the first sample). -/

/-- Spec wording of the candidate row. -/
def specCandidate (initP der sec : Row) (t : ℚ) : Row :=
  fun j => sec j * 0.5 * (t - 2021) ^ 2 + der j * (t - 2021) + initP j

/-- Spec wording of the clamp: channels 0, 2, 3, 4, 5 are clamped to zero
from below; channel 1 (NaturalGas) is never clamped. -/
def specClamp (P : Row) : Row :=
  fun j => if j = 1 then P j else max (P j) 0

/-- Spec wording of one constraint-repair step. -/
def specStep (initP der sec : Row) (prev : Option Row) (t : ℚ) : Row :=
  let C := specClamp (specCandidate initP der sec t)
  let NG := 100 - (C 0 + C 2 + C 3 + C 4 + C 5)
  if 0 ≤ NG then (fun j => if j = 1 then NG else C j) else prev.getD initP

/-- Spec-side fold over the time grid carrying the previous accepted row. -/
def specGo (initP der sec : Row) : Option Row → List ℚ → List Row
  | _, [] => []
  | prev, t :: ts =>
    let r := specStep initP der sec prev t
    r :: specGo initP der sec (some r) ts

/-- Spec-side trajectory. -/
def specTrajectory (aYear : List ℚ) (initP der sec : Row) : List Row :=
  specGo initP der sec none aYear

/-! ### Evaluation helpers -/

lemma vec6_zero (a b c d e f : ℚ) : ![a, b, c, d, e, f] 0 = a := rfl

lemma vec6_one (a b c d e f : ℚ) : ![a, b, c, d, e, f] 1 = b := rfl

lemma vec6_two (a b c d e f : ℚ) : ![a, b, c, d, e, f] 2 = c := rfl

lemma vec6_three (a b c d e f : ℚ) : ![a, b, c, d, e, f] 3 = d := rfl

lemma vec6_four (a b c d e f : ℚ) : ![a, b, c, d, e, f] 4 = e := rfl

lemma vec6_five (a b c d e f : ℚ) : ![a, b, c, d, e, f] 5 = f := rfl

lemma clampP_ne_one (P : Row) {j : Fin 6} (hj : ¬ j = 1) :
    clampP P j = if P j < 0 then 0 else P j := if_neg hj

lemma clampP_one (P : Row) : clampP P 1 = P 1 := if_pos rfl

lemma clampP_zero (P : Row) : clampP P 0 = if P 0 < 0 then 0 else P 0 :=
  clampP_ne_one P (by decide)

lemma clampP_two (P : Row) : clampP P 2 = if P 2 < 0 then 0 else P 2 :=
  clampP_ne_one P (by decide)

lemma clampP_three (P : Row) : clampP P 3 = if P 3 < 0 then 0 else P 3 :=
  clampP_ne_one P (by decide)

lemma clampP_four (P : Row) : clampP P 4 = if P 4 < 0 then 0 else P 4 :=
  clampP_ne_one P (by decide)

lemma clampP_five (P : Row) : clampP P 5 = if P 5 < 0 then 0 else P 5 :=
  clampP_ne_one P (by decide)

lemma acceptedRow_ne_one (P : Row) (NG : ℚ) {j : Fin 6} (hj : ¬ j = 1) :
    acceptedRow P NG j = P j := if_neg hj

lemma acceptedRow_one (P : Row) (NG : ℚ) : acceptedRow P NG 1 = NG := if_pos rfl

lemma acceptedRow_zero (P : Row) (NG : ℚ) : acceptedRow P NG 0 = P 0 :=
  acceptedRow_ne_one P NG (by decide)

lemma acceptedRow_two (P : Row) (NG : ℚ) : acceptedRow P NG 2 = P 2 :=
  acceptedRow_ne_one P NG (by decide)

lemma acceptedRow_three (P : Row) (NG : ℚ) : acceptedRow P NG 3 = P 3 :=
  acceptedRow_ne_one P NG (by decide)

lemma acceptedRow_four (P : Row) (NG : ℚ) : acceptedRow P NG 4 = P 4 :=
  acceptedRow_ne_one P NG (by decide)

lemma acceptedRow_five (P : Row) (NG : ℚ) : acceptedRow P NG 5 = P 5 :=
  acceptedRow_ne_one P NG (by decide)

lemma Row.ext6 {a b : Row} (h0 : a 0 = b 0) (h1 : a 1 = b 1) (h2 : a 2 = b 2)
    (h3 : a 3 = b 3) (h4 : a 4 = b 4) (h5 : a 5 = b 5) : a = b := by
  funext j
  fin_cases j
  · exact h0
  · exact h1
  · exact h2
  · exact h3
  · exact h4
  · exact h5

lemma clampP_nonneg (P : Row) {j : Fin 6} (hj : ¬ j = 1) : 0 ≤ clampP P j := by
  rw [clampP_ne_one P hj]
  split
  · exact le_refl 0
  · exact le_of_not_lt (by assumption)

/-- `stepRow` written through `NGof` and `installRow`. -/
lemma stepRow_eq (initP der sec : Row) (prev : Option Row) (t : ℚ) :
    stepRow initP der sec prev t =
      if 0 ≤ NGof initP der sec t then installRow (clampP (candidateRow initP der sec t))
      else
        match prev with
        | some r => r
        | none => initP := rfl

lemma percentSourcesGo_length (initP der sec : Row) (prev : Option Row) (ts : List ℚ) :
    (percentSourcesGo initP der sec prev ts).length = ts.length := by
  induction ts generalizing prev with
  | nil => rfl
  | cons t ts ih => simpa [percentSourcesGo] using ih (some (stepRow initP der sec prev t))

lemma get_aPercentSources_length (aYear : List ℚ) (initP der sec : Row) :
    (get_aPercentSources aYear initP der sec).length = aYear.length :=
  percentSourcesGo_length initP der sec none aYear

/-- The row written at index `k` is the step function applied to the row
written at index `k-1` (no previous row at `k = 0`) and the time sample
at `k`. -/
lemma percentSourcesGo_getD (initP der sec : Row) :
    ∀ (ts : List ℚ) (prev : Option Row) (k : ℕ), k < ts.length →
      (percentSourcesGo initP der sec prev ts).getD k zeroRow =
        stepRow initP der sec
          (if k = 0 then prev
           else some ((percentSourcesGo initP der sec prev ts).getD (k - 1) zeroRow))
          (ts.getD k 0) := by
  intro ts
  induction ts with
  | nil => intro prev k hk; simp at hk
  | cons t ts ih =>
    intro prev k hk
    match k with
    | 0 => simp [percentSourcesGo]
    | Nat.succ j =>
      have hj : j < ts.length := by simpa using Nat.lt_of_succ_lt_succ hk
      have step := ih (some (stepRow initP der sec prev t)) j hj
      calc (percentSourcesGo initP der sec prev (t :: ts)).getD (j + 1) zeroRow
          = (percentSourcesGo initP der sec (some (stepRow initP der sec prev t)) ts).getD
              j zeroRow := by
            simp [percentSourcesGo]
        _ = stepRow initP der sec
              (if j = 0 then some (stepRow initP der sec prev t)
               else some ((percentSourcesGo initP der sec
                   (some (stepRow initP der sec prev t)) ts).getD (j - 1) zeroRow))
              (ts.getD j 0) := step
        _ = stepRow initP der sec
              (if j + 1 = 0 then prev
               else some ((percentSourcesGo initP der sec prev (t :: ts)).getD
                   (j + 1 - 1) zeroRow))
              ((t :: ts).getD (j + 1) 0) := by
            match j with
            | 0 => simp [percentSourcesGo]
            | Nat.succ i => simp [percentSourcesGo]

lemma rows_getD_eq_step (aYear : List ℚ) (initP der sec : Row) (k : ℕ)
    (hk : k < aYear.length) :
    (get_aPercentSources aYear initP der sec).getD k zeroRow =
      stepRow initP der sec
        (if k = 0 then none
         else some ((get_aPercentSources aYear initP der sec).getD (k - 1) zeroRow))
        (aYear.getD k 0) :=
  percentSourcesGo_getD initP der sec aYear none k hk

/-- A sample whose clamped candidate has nonnegative slack yields the
installed candidate row, regardless of the accepted-row history. -/
lemma rows_getD_of_feasible (aYear : List ℚ) (initP der sec : Row) (k : ℕ)
    (hk : k < aYear.length) (hf : 0 ≤ NGof initP der sec (aYear.getD k 0)) :
    (get_aPercentSources aYear initP der sec).getD k zeroRow =
      installRow (clampP (candidateRow initP der sec (aYear.getD k 0))) := by
  rw [rows_getD_eq_step aYear initP der sec k hk, stepRow_eq, if_pos hf]

lemma getD_replicate_zero (n i : ℕ) : (List.replicate n (0 : ℚ)).getD i 0 = 0 := by
  induction n generalizing i with
  | zero => rfl
  | succ m ih =>
    match i with
    | 0 => rfl
    | Nat.succ j =>
      rw [List.replicate_succ, List.getD_cons_succ]
      exact ih j

/-! ### Claim C1: row invariant -/

lemma stepRow_valid (initP der sec : Row) (prev : Option Row) (t : ℚ)
    (hInit : rowSum initP = 100 ∧ ∀ j, 0 ≤ initP j)
    (hPrev : ∀ r, prev = some r → rowSum r = 100 ∧ ∀ j, 0 ≤ r j) :
    rowSum (stepRow initP der sec prev t) = 100 ∧
      ∀ j, 0 ≤ stepRow initP der sec prev t j := by
  rw [stepRow_eq]
  by_cases h : 0 ≤ NGof initP der sec t
  · rw [if_pos h]
    constructor
    · have hs : rowSum (installRow (clampP (candidateRow initP der sec t))) =
          clampP (candidateRow initP der sec t) 0 +
            slackNG (clampP (candidateRow initP der sec t)) +
            clampP (candidateRow initP der sec t) 2 +
            clampP (candidateRow initP der sec t) 3 +
            clampP (candidateRow initP der sec t) 4 +
            clampP (candidateRow initP der sec t) 5 := by
        unfold rowSum installRow
        rw [acceptedRow_zero, acceptedRow_one, acceptedRow_two, acceptedRow_three,
          acceptedRow_four, acceptedRow_five]
      rw [hs]
      unfold slackNG
      ring
    · intro j
      by_cases hj : j = 1
      · subst hj
        unfold installRow
        rw [acceptedRow_one]
        exact h
      · unfold installRow
        rw [acceptedRow_ne_one _ _ hj]
        exact clampP_nonneg _ hj
  · rw [if_neg h]
    cases prev with
    | none => exact hInit
    | some r => exact hPrev r rfl

lemma percentSourcesGo_valid (initP der sec : Row)
    (hInit : rowSum initP = 100 ∧ ∀ j, 0 ≤ initP j) :
    ∀ (ts : List ℚ) (prev : Option Row),
      (∀ r, prev = some r → rowSum r = 100 ∧ ∀ j, 0 ≤ r j) →
      ∀ row ∈ percentSourcesGo initP der sec prev ts,
        rowSum row = 100 ∧ ∀ j, 0 ≤ row j := by
  intro ts
  induction ts with
  | nil =>
    intro prev _ row hrow
    simp [percentSourcesGo] at hrow
  | cons t ts ih =>
    intro prev hPrev row hrow
    have hstep := stepRow_valid initP der sec prev t hInit hPrev
    rcases List.mem_cons.mp hrow with h | h
    · rw [h]
      exact hstep
    · exact ih (some (stepRow initP der sec prev t))
        (fun r hr => by
          rw [Option.some_inj] at hr
          rw [hr] at hstep
          exact hstep) row h

/-- Claim C1: for every time grid and every call to `get_aPercentSources`
whose `initial_percentages` argument is a 6-vector of nonnegative values
summing to 100, every row of the returned trajectory sums to exactly 100
and every one of its 6 channels is nonnegative. -/
theorem trajectory_rows_sum100_nonneg (aYear : List ℚ) (initP der sec : Row)
    (hsum : rowSum initP = 100) (hnn : ∀ j, 0 ≤ initP j) :
    ∀ row ∈ get_aPercentSources aYear initP der sec,
      rowSum row = 100 ∧ ∀ j, 0 ≤ row j :=
  percentSourcesGo_valid initP der sec ⟨hsum, hnn⟩ aYear none (fun r hr => by cases hr)

/-- Witness for C1: the default initial percentages are nonnegative and sum
to 100, and the invariant holds on a concrete grid. -/
theorem trajectory_rows_sum100_nonneg_witness :
    (rowSum initial_percentages = 100 ∧ ∀ j, 0 ≤ initial_percentages j) ∧
      ∀ row ∈ get_aPercentSources [2021, 2022, 2027] initial_percentages
          derivative_sources zeroRow,
        rowSum row = 100 ∧ ∀ j, 0 ≤ row j := by
  have hsum : rowSum initial_percentages = 100 := by
    norm_num [rowSum, initial_percentages, vec6_zero, vec6_one, vec6_two, vec6_three,
      vec6_four, vec6_five]
  have hnn : ∀ j, 0 ≤ initial_percentages j := by
    intro j
    fin_cases j <;> norm_num [initial_percentages]
  exact ⟨⟨hsum, hnn⟩,
    trajectory_rows_sum100_nonneg [2021, 2022, 2027] initial_percentages
      derivative_sources zeroRow hsum hnn⟩

/-! ### Claim C2: the trajectory step matches the spec wording -/

lemma specCandidate_eq (initP der sec : Row) (t : ℚ) :
    specCandidate initP der sec t = candidateRow initP der sec t := by
  funext j
  unfold specCandidate candidateRow
  ring

lemma specClamp_eq (P : Row) : specClamp P = clampP P := by
  funext j
  by_cases hj : j = 1
  · unfold specClamp clampP
    rw [if_pos hj, if_pos hj]
  · unfold specClamp clampP
    rw [if_neg hj, if_neg hj]
    rcases lt_or_le (P j) 0 with h | h
    · rw [if_pos h, max_eq_right h.le]
    · rw [if_neg (not_lt.mpr h), max_eq_left h]

lemma specStep_eq (initP der sec : Row) (prev : Option Row) (t : ℚ) :
    specStep initP der sec prev t = stepRow initP der sec prev t := by
  unfold specStep stepRow
  rw [specCandidate_eq, specClamp_eq]
  cases prev with
  | none => rfl
  | some r => rfl

lemma specGo_eq (initP der sec : Row) :
    ∀ (ts : List ℚ) (prev : Option Row),
      specGo initP der sec prev ts = percentSourcesGo initP der sec prev ts := by
  intro ts
  induction ts with
  | nil => intro prev; rfl
  | cons t ts ih =>
    intro prev
    show specStep initP der sec prev t :: specGo initP der sec (some (specStep initP der sec prev t)) ts =
      stepRow initP der sec prev t :: percentSourcesGo initP der sec (some (stepRow initP der sec prev t)) ts
    rw [specStep_eq, ih]

/-- Claim C2: for every time sample, `get_aPercentSources` computes the
candidate row as `second_derivative * 0.5 * (t-2021)² + first_derivative *
(t-2021) + initial_percentages` elementwise, with the delta anchored to
the fixed reference year 2021 (not to the first grid element); clamps to
zero any negative value among channels 0, 2, 3, 4, 5 (never channel 1);
sets the NaturalGas channel to 100 minus the sum of the five
possibly-clamped channels; and accepts the row exactly when that slack is
nonnegative, falling back to the previous row (or the unmodified initial
percentages) otherwise.  Stated as: the source function coincides with the
spec-worded trajectory on every input. -/
theorem get_aPercentSources_matches_spec (aYear : List ℚ) (initP der sec : Row) :
    get_aPercentSources aYear initP der sec = specTrajectory aYear initP der sec :=
  (specGo_eq initP der sec aYear none).symm

/-! ### Claim C3: freeze on infeasibility, fallback at the first sample,
and acceptance of later feasible candidates -/

/-- Claim C3: at every sample index `k` whose computed NaturalGas slack is
negative, the trajectory row at `k` equals the row at `k-1` (for `k > 0`)
or `initial_percentages` unmodified (for `k = 0`); and a sample whose own
candidate is feasible is accepted independently of any earlier freeze, so
a frozen value propagates only while candidates stay infeasible. -/
theorem freeze_and_accept_behavior (aYear : List ℚ) (initP der sec : Row) (k : ℕ)
    (hk : k < aYear.length) :
    (NGof initP der sec (aYear.getD k 0) < 0 →
        (k = 0 → (get_aPercentSources aYear initP der sec).getD 0 zeroRow = initP) ∧
        (0 < k → (get_aPercentSources aYear initP der sec).getD k zeroRow =
            (get_aPercentSources aYear initP der sec).getD (k - 1) zeroRow)) ∧
    (0 ≤ NGof initP der sec (aYear.getD k 0) →
        (get_aPercentSources aYear initP der sec).getD k zeroRow =
          installRow (clampP (candidateRow initP der sec (aYear.getD k 0)))) := by
  have hstep := rows_getD_eq_step aYear initP der sec k hk
  constructor
  · intro hneg
    constructor
    · intro hk0
      subst hk0
      rw [hstep, if_pos rfl, stepRow_eq, if_neg (not_le.mpr hneg)]
    · intro hkpos
      have hk0 : ¬ k = 0 := Nat.pos_iff_ne_zero.mp hkpos
      rw [hstep, if_neg hk0, stepRow_eq, if_neg (not_le.mpr hneg)]
  · intro hpos
    rw [hstep, stepRow_eq, if_pos hpos]

/-- First-derivative vector forcing the slack negative at the second
sample of the grid `[2021, 2022]`: Coal grows by 200 points per year. -/
def derBig : Row := ![200, 0, 0, 0, 0, 0]

/-- Witness for C3: on the grid `[2021, 2022]` with defaults except a huge
Coal trend, the slack is negative at index 1 and the row freezes to the
row at index 0. -/
theorem freeze_and_accept_behavior_witness :
    1 < ([2021, 2022] : List ℚ).length ∧
      NGof initial_percentages derBig zeroRow (([2021, 2022] : List ℚ).getD 1 0) < 0 ∧
      (get_aPercentSources [2021, 2022] initial_percentages derBig zeroRow).getD 1 zeroRow =
        (get_aPercentSources [2021, 2022] initial_percentages derBig zeroRow).getD 0 zeroRow := by
  have hk : 1 < ([2021, 2022] : List ℚ).length := by norm_num
  have hneg : NGof initial_percentages derBig zeroRow (([2021, 2022] : List ℚ).getD 1 0) < 0 := by
    norm_num [NGof, slackNG, clampP_zero, clampP_two, clampP_three, clampP_four, clampP_five,
      candidateRow, initial_percentages, derBig, zeroRow, vec6_zero, vec6_one, vec6_two,
      vec6_three, vec6_four, vec6_five, List.getD_cons_zero, List.getD_cons_succ]
  refine ⟨hk, hneg, ?_⟩
  have h := (freeze_and_accept_behavior [2021, 2022] initial_percentages derBig zeroRow 1 hk).1
  exact (h hneg).2 (by norm_num)

/-! ### Claim C5: zero trends -/

/-- A nonnegative initial 6-vector that does not sum to 100. -/
def flatInit : Row := ![10, 10, 10, 10, 10, 10]

/-- Counterexample to C5 as stated: with both trend vectors all-zero but an
`initial_percentages` argument that does not sum to 100, the produced row
differs from `initial_percentages` (the slack overwrite sets NaturalGas to
50, not 10). -/
theorem zero_trends_identity_cex :
    ¬ (∀ row ∈ get_aPercentSources [(2021 : ℚ)] flatInit zeroRow zeroRow, row = flatInit) := by
  intro h
  have hlist : get_aPercentSources [(2021 : ℚ)] flatInit zeroRow zeroRow =
      [![10, 50, 10, 10, 10, 10]] := by
    norm_num [get_aPercentSources, percentSourcesGo, stepRow, slackNG, clampP_zero, clampP_one,
      clampP_two, clampP_three, clampP_four, clampP_five, candidateRow, flatInit, zeroRow,
      vec6_zero, vec6_one, vec6_two, vec6_three, vec6_four, vec6_five]
    apply Row.ext6 <;>
      norm_num [acceptedRow_zero, acceptedRow_one, acceptedRow_two, acceptedRow_three,
        acceptedRow_four, acceptedRow_five, clampP_zero, clampP_one, clampP_two, clampP_three,
        clampP_four, clampP_five, candidateRow, flatInit, zeroRow, vec6_zero, vec6_one, vec6_two,
        vec6_three, vec6_four, vec6_five]
  have hmem : (![10, 50, 10, 10, 10, 10] : Row) ∈
      get_aPercentSources [(2021 : ℚ)] flatInit zeroRow zeroRow := by
    rw [hlist]
    exact List.mem_singleton.mpr rfl
  have heq := congrFun (h _ hmem) 1
  norm_num [flatInit, vec6_one] at heq

/-- Claim C5 amended: if the first- and second-derivative trend vectors are
both all-zero AND the initial percentages are nonnegative and sum to 100
(the validity condition the data model imposes on this argument), then
every trajectory row equals `initial_percentages` exactly, for every time
grid. -/
theorem zero_trends_identity_amended (aYear : List ℚ) (initP der sec : Row)
    (hder : ∀ j, der j = 0) (hsec : ∀ j, sec j = 0)
    (hsum : rowSum initP = 100) (hnn : ∀ j, 0 ≤ initP j) :
    ∀ row ∈ get_aPercentSources aYear initP der sec, row = initP := by
  have hcand : ∀ t, candidateRow initP der sec t = initP := by
    intro t
    funext j
    unfold candidateRow
    rw [hder j, hsec j]
    ring
  have hclamp : clampP initP = initP := by
    funext j
    by_cases hj : j = 1
    · unfold clampP
      rw [if_pos hj]
    · unfold clampP
      rw [if_neg hj, if_neg (not_lt.mpr (hnn j))]
  have hNG : slackNG initP = initP 1 := by
    unfold slackNG
    unfold rowSum at hsum
    linarith
  have hstep : ∀ prev t, stepRow initP der sec prev t = initP := by
    intro prev t
    have hngof : NGof initP der sec t = initP 1 := by
      unfold NGof
      rw [hcand, hclamp, hNG]
    rw [stepRow_eq, hngof, if_pos (hnn 1), hcand, hclamp]
    unfold installRow
    rw [hNG]
    funext j
    by_cases hj : j = 1
    · rw [hj, acceptedRow_one]
    · rw [acceptedRow_ne_one _ _ hj]
  suffices hgo : ∀ (ts : List ℚ) (prev : Option Row),
      ∀ row ∈ percentSourcesGo initP der sec prev ts, row = initP from
    hgo aYear none
  intro ts
  induction ts with
  | nil =>
    intro prev row h
    simp [percentSourcesGo] at h
  | cons t ts ih =>
    intro prev row h
    rcases List.mem_cons.mp h with h | h
    · rw [h, hstep]
    · exact ih _ row h

/-- Witness for C5 (amended): the default initial percentages with both
trend vectors zero reproduce themselves on a concrete grid. -/
theorem zero_trends_identity_amended_witness :
    (∀ j, zeroRow j = 0) ∧ rowSum initial_percentages = 100 ∧
      (∀ j, 0 ≤ initial_percentages j) ∧
      ∀ row ∈ get_aPercentSources [2021, 2023, 2030] initial_percentages zeroRow zeroRow,
        row = initial_percentages := by
  have hz : ∀ j : Fin 6, zeroRow j = 0 := fun j => rfl
  have hsum : rowSum initial_percentages = 100 := by
    norm_num [rowSum, initial_percentages, vec6_zero, vec6_one, vec6_two, vec6_three,
      vec6_four, vec6_five]
  have hnn : ∀ j, 0 ≤ initial_percentages j := by
    intro j
    fin_cases j <;> norm_num [initial_percentages]
  exact ⟨hz, hsum, hnn,
    zero_trends_identity_amended [2021, 2023, 2030] initial_percentages zeroRow zeroRow
      hz hz hsum hnn⟩

/-! ### Claim C7: the aggregator formula -/

lemma getLastD_eq_getLast (l : List ℚ) (h : l ≠ []) (d : ℚ) :
    l.getLastD d = l.getLast h := by
  match l with
  | a :: as => rw [List.getLastD_cons, ← List.getLast_eq_getLastD]

lemma headI_eq_head (l : List ℚ) (h : l ≠ []) : l.headI = l.head h := by
  match l with
  | a :: as => rfl

/-- Claim C7: for every non-empty time grid and every series,
`get_totalEmissions` returns `sum(series) * (last - first) / len` with
divisor `len(time_grid)` (not `len-1`, and not a trapezoidal rule). -/
theorem get_totalEmissions_formula (aYear aEmissions : List ℚ) (h : aYear ≠ []) :
    get_totalEmissions aYear aEmissions =
      aEmissions.sum * ((aYear.getLast h - aYear.head h) / (aYear.length : ℚ)) := by
  unfold get_totalEmissions
  rw [getLastD_eq_getLast aYear h 0, headI_eq_head aYear h]

/-- Witness for C7 at a concrete grid and series. -/
theorem get_totalEmissions_formula_witness :
    ([(1 : ℚ), 3] ≠ []) ∧
      get_totalEmissions [(1 : ℚ), 3] [10, 20] =
        ([(10 : ℚ), 20].sum *
          (([(1 : ℚ), 3].getLast (List.cons_ne_nil 1 [3]) -
              [(1 : ℚ), 3].head (List.cons_ne_nil 1 [3])) /
            (([(1 : ℚ), 3].length : ℕ) : ℚ))) :=
  ⟨List.cons_ne_nil 1 [3],
   get_totalEmissions_formula [(1 : ℚ), 3] [10, 20] (List.cons_ne_nil 1 [3])⟩

/-! ### Claim C9: the NaturalGas slot of the first-derivative vector is ignored -/

lemma stepRow_update_der (initP der sec : Row) (v w : ℚ) (prev : Option Row) (t : ℚ) :
    stepRow initP (Function.update der 1 v) sec prev t =
      stepRow initP (Function.update der 1 w) sec prev t := by
  have hcand : ∀ j : Fin 6, ¬ j = 1 →
      candidateRow initP (Function.update der 1 v) sec t j =
        candidateRow initP (Function.update der 1 w) sec t j := by
    intro j hj
    unfold candidateRow
    rw [Function.update_noteq hj, Function.update_noteq hj]
  have hclamp : ∀ j : Fin 6, ¬ j = 1 →
      clampP (candidateRow initP (Function.update der 1 v) sec t) j =
        clampP (candidateRow initP (Function.update der 1 w) sec t) j := by
    intro j hj
    rw [clampP_ne_one _ hj, clampP_ne_one _ hj, hcand j hj]
  have hNG : NGof initP (Function.update der 1 v) sec t =
      NGof initP (Function.update der 1 w) sec t := by
    unfold NGof slackNG
    rw [hclamp 0 (by decide), hclamp 2 (by decide), hclamp 3 (by decide),
      hclamp 4 (by decide), hclamp 5 (by decide)]
  rw [stepRow_eq, stepRow_eq, hNG]
  by_cases h : 0 ≤ NGof initP (Function.update der 1 w) sec t
  · rw [if_pos h, if_pos h]
    funext j
    by_cases hj : j = 1
    · rw [hj]
      unfold installRow
      rw [acceptedRow_one, acceptedRow_one]
      exact hNG
    · unfold installRow
      rw [acceptedRow_ne_one _ _ hj, acceptedRow_ne_one _ _ hj]
      exact hclamp j hj
  · rw [if_neg h, if_neg h]

/-- Claim C9: the NaturalGas slot (index 1) of the first-derivative trend
vector is ignored — any two values placed there, all else equal, give
identical trajectories. -/
theorem derivative_NG_slot_ignored (aYear : List ℚ) (initP der sec : Row) (v w : ℚ) :
    get_aPercentSources aYear initP (Function.update der 1 v) sec =
      get_aPercentSources aYear initP (Function.update der 1 w) sec := by
  suffices hgo : ∀ (ts : List ℚ) (prev : Option Row),
      percentSourcesGo initP (Function.update der 1 v) sec prev ts =
        percentSourcesGo initP (Function.update der 1 w) sec prev ts from
    hgo aYear none
  intro ts
  induction ts with
  | nil => intro prev; rfl
  | cons t ts ih =>
    intro prev
    simp only [percentSourcesGo]
    rw [stepRow_update_der initP der sec v w prev t, ih]

/-! ### Claim C10: reliability output is independent of `perc_effective` -/

/-- Claim C10: for every value of `perc_effective`, all other arguments held
equal, `get_aReliability` returns the same output series — the derived
WinterNaturalGas coefficient is `(1 - perc_effective/100) * 0 = 0`
regardless. -/
theorem reliability_independent_of_perc_effective (aYear : List ℚ) (traj : List Row)
    (aEnergy : List ℚ) (pe1 pe2 dirE : ℚ) (scores : Row) :
    (get_aReliability aYear traj aEnergy pe1 dirE scores).1 =
      (get_aReliability aYear traj aEnergy pe2 dirE scores).1 := by
  have hscores : ∀ pe : ℚ,
      (fun j : Fin 6 =>
          if j = 5 then (1 - pe / 100) * (List.replicate aYear.length (0 : ℚ)).getD 1 0
          else scores j) =
        (fun j : Fin 6 => if j = 5 then 0 else scores j) := by
    intro pe
    funext j
    by_cases hj : j = 5
    · rw [if_pos hj, if_pos hj, getD_replicate_zero, mul_zero]
    · rw [if_neg hj, if_neg hj]
  simp only [get_aReliability]
  rw [hscores pe1, hscores pe2]

/-! ### Claim C4: the reliability formula -/

lemma getD_range_map (f : ℕ → ℚ) (n i : ℕ) (hi : i < n) :
    ((List.range n).map f).getD i 0 = f i := by
  have hlen : i < ((List.range n).map f).length := by simpa using hi
  rw [List.getD_eq_getElem _ _ hlen, List.getElem_map]
  rw [List.getElem_range]

lemma getD_map_div (l : List ℚ) (c : ℚ) (i : ℕ) :
    (l.map (fun e => e / c)).getD i 0 = l.getD i 0 / c := by
  by_cases hi : i < l.length
  · rw [List.getD_eq_getElem _ _ (by simpa using hi), List.getD_eq_getElem _ _ hi,
      List.getElem_map]
  · rw [List.getD_eq_default _ _ (by simpa using not_lt.mp hi),
      List.getD_eq_default _ _ (not_lt.mp hi), zero_div]

/-- Claim C4: with the default energy slope, `get_aReliability` first sets
the WinterNaturalGas coefficient to `(1 - perc_effective/100)` times entry
1 of the freshly zero-initialised reliability array — exactly 0 — and then
returns `reliability[i] = (energy_series[i] / E2021) * dot(coeffs,
trajectory[i])`, where `E2021 = 6.92e6 * 2021 - 1.35e10` comes from the
Energy Projection formula at the fixed reference year 2021, independent of
the supplied energy series. -/
theorem get_aReliability_formula (aYear : List ℚ) (traj : List Row) (aEnergy : List ℚ)
    (pe : ℚ) (scores : Row) (_hlen : 2 ≤ aYear.length) (i : ℕ) (hi : i < aYear.length) :
    (get_aReliability aYear traj aEnergy pe (6.92 * 10 ^ 6) scores).2 5 = 0 ∧
      (get_aReliability aYear traj aEnergy pe (6.92 * 10 ^ 6) scores).1.getD i 0 =
        aEnergy.getD i 0 / (6.92 * 10 ^ 6 * 2021 - 1.35 * 10 ^ 10) *
          dot (fun j => if j = 5 then (0 : ℚ) else scores j) (traj.getD i zeroRow) := by
  have hfun : (fun j : Fin 6 =>
      if j = 5 then (1 - pe / 100) * (List.replicate aYear.length (0 : ℚ)).getD 1 0
      else scores j) = (fun j : Fin 6 => if j = 5 then (0 : ℚ) else scores j) := by
    funext j
    by_cases hj : j = 5
    · rw [if_pos hj, if_pos hj, getD_replicate_zero, mul_zero]
    · rw [if_neg hj, if_neg hj]
  have h2 : (get_aReliability aYear traj aEnergy pe (6.92 * 10 ^ 6) scores).2 =
      fun j : Fin 6 =>
        if j = 5 then (1 - pe / 100) * (List.replicate aYear.length (0 : ℚ)).getD 1 0
        else scores j := rfl
  have h1 : (get_aReliability aYear traj aEnergy pe (6.92 * 10 ^ 6) scores).1 =
      (List.range aYear.length).map
        (fun k => (aEnergy.map
            (fun e => e / (6.92 * 10 ^ 6 * 2021 - 1.35 * 10 ^ 10))).getD k 0 *
          dot (fun j : Fin 6 =>
              if j = 5 then (1 - pe / 100) * (List.replicate aYear.length (0 : ℚ)).getD 1 0
              else scores j)
            (traj.getD k zeroRow)) := rfl
  constructor
  · rw [h2, hfun]
    exact if_pos rfl
  · rw [h1, hfun, getD_range_map _ _ i hi, getD_map_div]

/-- Witness for C4 on a concrete grid, trajectory and energy series. -/
theorem get_aReliability_formula_witness :
    2 ≤ ([2021, 2022] : List ℚ).length ∧ 1 < ([2021, 2022] : List ℚ).length ∧
      (get_aReliability [2021, 2022] [initial_percentages, initial_percentages] [1, 2] 83.5
          (6.92 * 10 ^ 6) aRelScores).2 5 = 0 ∧
      (get_aReliability [2021, 2022] [initial_percentages, initial_percentages] [1, 2] 83.5
          (6.92 * 10 ^ 6) aRelScores).1.getD 1 0 =
        ([(1 : ℚ), 2]).getD 1 0 / (6.92 * 10 ^ 6 * 2021 - 1.35 * 10 ^ 10) *
          dot (fun j => if j = 5 then (0 : ℚ) else aRelScores j)
            (([initial_percentages, initial_percentages] : List Row).getD 1 zeroRow) := by
  have h := get_aReliability_formula [2021, 2022] [initial_percentages, initial_percentages]
    [1, 2] 83.5 aRelScores (by norm_num) 1 (by norm_num)
  exact ⟨by norm_num, by norm_num, h.1, h.2⟩

/-! ### Claim C8: the coefficient-array write is observable across calls -/

/-- Claim C8: `get_aReliability` updates the reliability-coefficient array
it is given: afterwards index 5 equals 0 while indices 0–4 are unchanged,
and a subsequent call run with the updated array behaves exactly as if it
had been handed the original array with index 5 overwritten by 0 (the
state-passing rendering of the in-place default-array mutation). -/
theorem get_aReliability_mutates_scores (aYear1 aYear2 : List ℚ)
    (traj1 traj2 : List Row) (ae1 ae2 : List ℚ) (pe1 pe2 dirE1 dirE2 : ℚ) (scores : Row) :
    (get_aReliability aYear1 traj1 ae1 pe1 dirE1 scores).2 5 = 0 ∧
      (∀ j, ¬ j = 5 → (get_aReliability aYear1 traj1 ae1 pe1 dirE1 scores).2 j = scores j) ∧
      get_aReliability aYear2 traj2 ae2 pe2 dirE2
          ((get_aReliability aYear1 traj1 ae1 pe1 dirE1 scores).2) =
        get_aReliability aYear2 traj2 ae2 pe2 dirE2
          (fun j => if j = 5 then 0 else scores j) := by
  have h2 : (get_aReliability aYear1 traj1 ae1 pe1 dirE1 scores).2 =
      fun j : Fin 6 =>
        if j = 5 then (1 - pe1 / 100) * (List.replicate aYear1.length (0 : ℚ)).getD 1 0
        else scores j := rfl
  have h2' : (get_aReliability aYear1 traj1 ae1 pe1 dirE1 scores).2 =
      fun j : Fin 6 => if j = 5 then 0 else scores j := by
    rw [h2]
    funext j
    by_cases hj : j = 5
    · rw [if_pos hj, if_pos hj, getD_replicate_zero, mul_zero]
    · rw [if_neg hj, if_neg hj]
  refine ⟨?_, ?_, ?_⟩
  · rw [h2']
    exact if_pos rfl
  · intro j hj
    rw [h2']
    exact if_neg hj
  · rw [h2']

/-- Witness for C8 at concrete arguments, instantiating the unchanged-index
conjunct at index 0. -/
theorem get_aReliability_mutates_scores_witness :
    (get_aReliability [2021, 2022] [initial_percentages] [1] 83.5 (6.92 * 10 ^ 6)
        aRelScores).2 5 = 0 ∧
      (¬ (0 : Fin 6) = 5) ∧
      (get_aReliability [2021, 2022] [initial_percentages] [1] 83.5 (6.92 * 10 ^ 6)
          aRelScores).2 0 = aRelScores 0 ∧
      get_aReliability [2023] [initial_percentages] [3] 50 (6.92 * 10 ^ 6)
          ((get_aReliability [2021, 2022] [initial_percentages] [1] 83.5 (6.92 * 10 ^ 6)
              aRelScores).2) =
        get_aReliability [2023] [initial_percentages] [3] 50 (6.92 * 10 ^ 6)
          (fun j => if j = 5 then 0 else aRelScores j) := by
  have h := get_aReliability_mutates_scores [2021, 2022] [2023] [initial_percentages]
    [initial_percentages] [1] [3] 83.5 50 (6.92 * 10 ^ 6) (6.92 * 10 ^ 6) aRelScores
  exact ⟨h.1, by decide, h.2.1 0 (by decide), h.2.2⟩

/-! ### Claim C6: monotonic decline of a channel with negative trends -/

/-- Claim C6 amended: for a non-slack channel with negative first and
second derivatives and positive initial percentage, along a non-decreasing
time grid all of whose samples lie at or after the anchor year 2021, and
in the absence of any freeze event, the channel's trajectory value is
non-increasing, and once it reaches zero it stays zero at every later
sample. -/
theorem monotonic_decline (aYear : List ℚ) (initP der sec : Row) (c : Fin 6)
    (hc : ¬ c = 1) (hder : der c < 0) (hsec : sec c < 0) (_hinit : 0 < initP c)
    (hsorted : ∀ i j : ℕ, i ≤ j → j < aYear.length → aYear.getD i 0 ≤ aYear.getD j 0)
    (hanchor : ∀ i : ℕ, i < aYear.length → (2021 : ℚ) ≤ aYear.getD i 0)
    (hfeas : ∀ i : ℕ, i < aYear.length → 0 ≤ NGof initP der sec (aYear.getD i 0)) :
    ∀ i j : ℕ, i ≤ j → j < aYear.length →
      (get_aPercentSources aYear initP der sec).getD j zeroRow c ≤
        (get_aPercentSources aYear initP der sec).getD i zeroRow c ∧
      ((get_aPercentSources aYear initP der sec).getD i zeroRow c = 0 →
        (get_aPercentSources aYear initP der sec).getD j zeroRow c = 0) := by
  intro i j hij hj
  have hi : i < aYear.length := lt_of_le_of_lt hij hj
  have hrowi := rows_getD_of_feasible aYear initP der sec i hi (hfeas i hi)
  have hrowj := rows_getD_of_feasible aYear initP der sec j hj (hfeas j hj)
  have hval : ∀ t : ℚ, installRow (clampP (candidateRow initP der sec t)) c =
      if candidateRow initP der sec t c < 0 then 0 else candidateRow initP der sec t c := by
    intro t
    unfold installRow
    rw [acceptedRow_ne_one _ _ hc, clampP_ne_one _ hc]
  have h2021 : (2021 : ℚ) ≤ aYear.getD i 0 := hanchor i hi
  have hmono : aYear.getD i 0 ≤ aYear.getD j 0 := hsorted i j hij hj
  have hcand_mono : candidateRow initP der sec (aYear.getD j 0) c ≤
      candidateRow initP der sec (aYear.getD i 0) c := by
    have key : 0 ≤ (aYear.getD j 0 - aYear.getD i 0) *
        (aYear.getD j 0 + aYear.getD i 0 - 4042) :=
      mul_nonneg (by linarith) (by linarith)
    have k2 : 0 ≤ (-(sec c)) * ((aYear.getD j 0 - aYear.getD i 0) *
        (aYear.getD j 0 + aYear.getD i 0 - 4042)) :=
      mul_nonneg (by linarith) key
    have k3 : 0 ≤ (-(der c)) * (aYear.getD j 0 - aYear.getD i 0) :=
      mul_nonneg (by linarith) (by linarith)
    unfold candidateRow
    nlinarith [k2, k3]
  have hj_nonneg : 0 ≤ (if candidateRow initP der sec (aYear.getD j 0) c < 0 then (0 : ℚ)
      else candidateRow initP der sec (aYear.getD j 0) c) := by
    by_cases hcj : candidateRow initP der sec (aYear.getD j 0) c < 0
    · rw [if_pos hcj]
    · rw [if_neg hcj]
      exact not_lt.mp hcj
  have hclamp_mono : (if candidateRow initP der sec (aYear.getD j 0) c < 0 then (0 : ℚ)
      else candidateRow initP der sec (aYear.getD j 0) c) ≤
      (if candidateRow initP der sec (aYear.getD i 0) c < 0 then (0 : ℚ)
      else candidateRow initP der sec (aYear.getD i 0) c) := by
    by_cases hcj : candidateRow initP der sec (aYear.getD j 0) c < 0
    · rw [if_pos hcj]
      by_cases hci : candidateRow initP der sec (aYear.getD i 0) c < 0
      · rw [if_pos hci]
      · rw [if_neg hci]
        exact not_lt.mp hci
    · rw [if_neg hcj]
      have hci : ¬ candidateRow initP der sec (aYear.getD i 0) c < 0 := by
        intro hci
        exact hcj (lt_of_le_of_lt hcand_mono hci)
      rw [if_neg hci]
      exact hcand_mono
  constructor
  · rw [hrowi, hrowj, hval, hval]
    exact hclamp_mono
  · intro hzero
    rw [hrowi, hval] at hzero
    rw [hrowj, hval]
    linarith [hclamp_mono, hj_nonneg, hzero.le, hzero.ge]

/-- Initial percentages used by the counterexample to C6 as stated. -/
def cexInit : Row := ![10, 62.9, 0.9, 17.5, 8.7, 0]

/-- First-derivative vector used by the counterexample to C6 (Coal −1). -/
def cexDer : Row := ![-1, 0, 0, 0, 0, 0]

/-- Second-derivative vector used by the counterexample to C6 (Coal −1). -/
def cexSec : Row := ![-1, 0, 0, 0, 0, 0]

/-- Counterexample to C6 as stated: on the strictly increasing grid
`[2019, 2020]` (before the fixed anchor year 2021), with Coal's first and
second derivatives both negative, Coal's initial percentage positive, and
no freeze event at either sample, the Coal channel strictly increases from
sample 0 to sample 1 — the claim omits the requirement that the grid lie
at or after the anchor year. -/
theorem monotonic_decline_cex :
    cexDer 0 < 0 ∧ cexSec 0 < 0 ∧ 0 < cexInit 0 ∧
      ([2019, 2020] : List ℚ).getD 0 0 < ([2019, 2020] : List ℚ).getD 1 0 ∧
      0 ≤ NGof cexInit cexDer cexSec (([2019, 2020] : List ℚ).getD 0 0) ∧
      0 ≤ NGof cexInit cexDer cexSec (([2019, 2020] : List ℚ).getD 1 0) ∧
      (get_aPercentSources [2019, 2020] cexInit cexDer cexSec).getD 0 zeroRow 0 <
        (get_aPercentSources [2019, 2020] cexInit cexDer cexSec).getD 1 zeroRow 0 := by
  refine ⟨?_, ?_, ?_, ?_, ?_, ?_, ?_⟩
  · norm_num [cexDer, vec6_zero]
  · norm_num [cexSec, vec6_zero]
  · norm_num [cexInit, vec6_zero]
  · norm_num
  · norm_num [NGof, slackNG, clampP_zero, clampP_two, clampP_three, clampP_four, clampP_five,
      candidateRow, cexInit, cexDer, cexSec, vec6_zero, vec6_one, vec6_two, vec6_three,
      vec6_four, vec6_five]
  · norm_num [NGof, slackNG, clampP_zero, clampP_two, clampP_three, clampP_four, clampP_five,
      candidateRow, cexInit, cexDer, cexSec, vec6_zero, vec6_one, vec6_two, vec6_three,
      vec6_four, vec6_five]
  · norm_num [get_aPercentSources, percentSourcesGo, stepRow, slackNG, clampP_zero, clampP_one,
      clampP_two, clampP_three, clampP_four, clampP_five, acceptedRow_zero, candidateRow,
      cexInit, cexDer, cexSec, zeroRow, vec6_zero, vec6_one, vec6_two, vec6_three, vec6_four,
      vec6_five]

/-- First-derivative vector for the C6 witness (Coal −2). -/
def declineDer : Row := ![-2, 0, 0, 0, 0, 0]

/-- Second-derivative vector for the C6 witness (Coal −1). -/
def declineSec : Row := ![-1, 0, 0, 0, 0, 0]

/-- Witness for C6 (amended) on the grid `[2021, 2022, 2025]` with the Coal
channel declining. -/
theorem monotonic_decline_witness :
    (¬ (0 : Fin 6) = 1) ∧ declineDer 0 < 0 ∧ declineSec 0 < 0 ∧
      0 < initial_percentages 0 ∧
      (∀ i j : ℕ, i ≤ j → j < ([2021, 2022, 2025] : List ℚ).length →
        ([2021, 2022, 2025] : List ℚ).getD i 0 ≤ ([2021, 2022, 2025] : List ℚ).getD j 0) ∧
      (∀ i : ℕ, i < ([2021, 2022, 2025] : List ℚ).length →
        (2021 : ℚ) ≤ ([2021, 2022, 2025] : List ℚ).getD i 0) ∧
      (∀ i : ℕ, i < ([2021, 2022, 2025] : List ℚ).length →
        0 ≤ NGof initial_percentages declineDer declineSec
          (([2021, 2022, 2025] : List ℚ).getD i 0)) ∧
      ∀ i j : ℕ, i ≤ j → j < ([2021, 2022, 2025] : List ℚ).length →
        (get_aPercentSources [2021, 2022, 2025] initial_percentages declineDer
            declineSec).getD j zeroRow 0 ≤
          (get_aPercentSources [2021, 2022, 2025] initial_percentages declineDer
            declineSec).getD i zeroRow 0 ∧
        ((get_aPercentSources [2021, 2022, 2025] initial_percentages declineDer
            declineSec).getD i zeroRow 0 = 0 →
          (get_aPercentSources [2021, 2022, 2025] initial_percentages declineDer
            declineSec).getD j zeroRow 0 = 0) := by
  have hc : ¬ (0 : Fin 6) = 1 := by decide
  have hder : declineDer 0 < 0 := by norm_num [declineDer, vec6_zero]
  have hsec : declineSec 0 < 0 := by norm_num [declineSec, vec6_zero]
  have hinit : 0 < initial_percentages 0 := by norm_num [initial_percentages, vec6_zero]
  have hsorted : ∀ i j : ℕ, i ≤ j → j < ([2021, 2022, 2025] : List ℚ).length →
      ([2021, 2022, 2025] : List ℚ).getD i 0 ≤ ([2021, 2022, 2025] : List ℚ).getD j 0 := by
    intro i j hij hj
    simp only [List.length_cons, List.length_nil] at hj
    interval_cases j <;> interval_cases i <;> norm_num
  have hanchor : ∀ i : ℕ, i < ([2021, 2022, 2025] : List ℚ).length →
      (2021 : ℚ) ≤ ([2021, 2022, 2025] : List ℚ).getD i 0 := by
    intro i hi
    simp only [List.length_cons, List.length_nil] at hi
    interval_cases i <;> norm_num
  have hfeas : ∀ i : ℕ, i < ([2021, 2022, 2025] : List ℚ).length →
      0 ≤ NGof initial_percentages declineDer declineSec
        (([2021, 2022, 2025] : List ℚ).getD i 0) := by
    intro i hi
    simp only [List.length_cons, List.length_nil] at hi
    interval_cases i <;>
      norm_num [NGof, slackNG, clampP_zero, clampP_two, clampP_three, clampP_four, clampP_five,
        candidateRow, initial_percentages, declineDer, declineSec, vec6_zero, vec6_one,
        vec6_two, vec6_three, vec6_four, vec6_five]
  exact ⟨hc, hder, hsec, hinit, hsorted, hanchor, hfeas,
    monotonic_decline [2021, 2022, 2025] initial_percentages declineDer declineSec 0
      hc hder hsec hinit hsorted hanchor hfeas⟩
